import Mathlib

/-!
Verification of the retry/backoff request engine in
`gemini_wrapper/client.py` (repository `ai_wrap`).

Strings are embedded as `List Char`.  Stdlib parsing primitives
(`float(...)`, `email.utils.parsedate_to_datetime`) are abstracted by the
`HintValue` inductive, which records the outcome of those parses; the
control flow around them is translated from the source.  Floating-point
arithmetic is idealised over `ℚ`.  The jitter draw
`random.uniform(0, hi)` is modelled as an explicit parameter constrained
to `[0, hi]` in the theorems that need it.  `asyncio.sleep` and the
debug-level log lines are effects with no bearing on the claims and are
not modelled; the retry log record itself (`_log_retry`) is modelled
explicitly.
-/

/-- `_RETRY_STATUS` from client.py line 24. -/
def _RETRY_STATUS : List ℕ := [429, 502, 503, 504]

/-- Outcome of the stdlib parses inside `_parse_retry_after`
(client.py lines 318-333): `numeric s` means `float(value)` succeeded
returning `s`; `httpDate target` means `parsedate_to_datetime(value)`
succeeded with timestamp `target` (seconds); `unparseable` means both
failed (or the date parse returned `None`). -/
inductive HintValue
  | numeric (seconds : ℚ)
  | httpDate (target : ℚ)
  | unparseable
deriving DecidableEq

/-- `GeminiAsyncClient._parse_retry_after` (client.py lines 318-333),
with the stdlib parse outcome supplied as a `HintValue` and the current
time as `now`.  A numeric value is clamped below by 0; a date value
yields `target - now` clamped below by 0; an unparseable value yields
`none` (the source catches the parse exceptions and returns `None`). -/
def _parse_retry_after (v : HintValue) (now : ℚ) : Option ℚ :=
  match v with
  | .numeric seconds => some (max seconds 0)
  | .httpDate target => some (max (target - now) 0)
  | .unparseable => none

/-- `GeminiAsyncClient._compute_delay` (client.py lines 305-316).
`retry_after` is the (already truthiness-filtered) `Retry-After` header:
`none` covers both a missing header and an empty-string header (falsy in
the source).  `jitter` stands for the draw
`random.uniform(0, base_delay * 0.25)`. -/
def _compute_delay (backoff_base max_backoff : ℚ) (attempt : ℕ)
    (retry_after : Option HintValue) (now jitter : ℚ) : ℚ :=
  match retry_after with
  | some v =>
    match _parse_retry_after v now with
    | some d => min d max_backoff
    | none => min (backoff_base * 2 ^ attempt) max_backoff + jitter
  | none => min (backoff_base * 2 ^ attempt) max_backoff + jitter

/-- `GeminiAsyncClient._should_retry_response` (client.py lines 297-300). -/
def _should_retry_response (status attempt max_retries : ℕ) : Bool :=
  if status ∉ _RETRY_STATUS then false
  else decide (attempt < max_retries)

/-- `GeminiAsyncClient._should_retry_exception` (client.py lines 302-303). -/
def _should_retry_exception (attempt max_retries : ℕ) : Bool :=
  decide (attempt < max_retries)

/-- C3: the retry classifier permits a retry on a response iff the status
is one of 429, 502, 503, 504 and `attempt < max_retries`; with
`max_retries = 0` a 503 is not retried on the first attempt; a
transport-level failure is retried exactly when `attempt < max_retries`,
with no further distinction. -/
theorem c3_retry_classifier (s a m : ℕ) :
    (_should_retry_response s a m = true ↔
      ((s = 429 ∨ s = 502 ∨ s = 503 ∨ s = 504) ∧ a < m)) ∧
    (_should_retry_exception a m = true ↔ a < m) ∧
    _should_retry_response 503 0 0 = false := by
  refine ⟨?_, ?_, by decide⟩
  · simp [_should_retry_response, _RETRY_STATUS]
  · simp [_should_retry_exception]

/-- C4: with no retry hint, the computed delay is exactly
`min(base * 2^attempt, max_delay) + jitter`; whenever the jitter draw
lies in `[0, cap/4]` (as `random.uniform(0, base_delay * 0.25)`
guarantees), the delay lies in `[cap, (5/4) * cap]` where
`cap = min(base * 2^attempt, max_delay)`. -/
theorem c4_backoff_bounds (b M : ℚ) (a : ℕ) (now j : ℚ)
    (hb : 0 < b) (hM : 0 < M) (hj0 : 0 ≤ j)
    (hj1 : j ≤ min (b * 2 ^ a) M * (1 / 4)) :
    _compute_delay b M a none now j = min (b * 2 ^ a) M + j ∧
    min (b * 2 ^ a) M ≤ _compute_delay b M a none now j ∧
    _compute_delay b M a none now j ≤ min (b * 2 ^ a) M * (5 / 4) := by
  refine ⟨rfl, ?_, ?_⟩
  · show min (b * 2 ^ a) M ≤ min (b * 2 ^ a) M + j
    linarith
  · show min (b * 2 ^ a) M + j ≤ min (b * 2 ^ a) M * (5 / 4)
    linarith

/-- Witness for C4 at `b = 1`, `M = 60`, `a = 0`, `now = 0`, `j = 0`. -/
theorem c4_witness :
    _compute_delay 1 60 0 none 0 0 = min ((1 : ℚ) * 2 ^ 0) 60 + 0 ∧
    min ((1 : ℚ) * 2 ^ 0) 60 ≤ _compute_delay 1 60 0 none 0 0 ∧
    _compute_delay 1 60 0 none 0 0 ≤ min ((1 : ℚ) * 2 ^ 0) 60 * (5 / 4) :=
  c4_backoff_bounds 1 60 0 0 0 (by norm_num) (by norm_num) (by norm_num)
    (by norm_num)

/-- C5: a hint parsing as a non-negative number of seconds `s` yields
exactly `min s max_delay` (no jitter, no exponential term); a hint
parsing as an HTTP date with timestamp `target` yields
`min (max (target - now) 0) max_delay`; in particular the hint `"2"`
always yields `min 2 max_delay`. -/
theorem c5_retry_hint_honored (b M : ℚ) (a : ℕ) (now j s target : ℚ)
    (hs : 0 ≤ s) :
    _compute_delay b M a (some (.numeric s)) now j = min s M ∧
    _compute_delay b M a (some (.httpDate target)) now j
      = min (max (target - now) 0) M ∧
    _compute_delay b M a (some (.numeric 2)) now j = min 2 M := by
  refine ⟨?_, rfl, ?_⟩
  · show min (max s 0) M = min s M
    rw [max_eq_left hs]
  · show min (max (2 : ℚ) 0) M = min 2 M
    norm_num

/-- Witness for C5 at `b = 1`, `M = 60`, `a = 3`, `now = 3`, `j = 7`,
`s = 2`, `target = 5`. -/
theorem c5_witness :
    _compute_delay 1 60 3 (some (.numeric 2)) 3 7 = min (2 : ℚ) 60 ∧
    _compute_delay 1 60 3 (some (.httpDate 5)) 3 7
      = min (max ((5 : ℚ) - 3) 0) 60 ∧
    _compute_delay 1 60 3 (some (.numeric 2)) 3 7 = min (2 : ℚ) 60 :=
  c5_retry_hint_honored 1 60 3 3 7 2 5 (by norm_num)

/-- C6: an unparseable hint is ignored: the parser returns `none` (the
source swallows the parse exceptions rather than raising) and the delay
computer falls through to exactly the exponential-backoff-with-jitter
value it would produce with no hint at all. -/
theorem c6_unparseable_hint_fallback (b M : ℚ) (a : ℕ) (now j : ℚ) :
    _parse_retry_after HintValue.unparseable now = none ∧
    _compute_delay b M a (some HintValue.unparseable) now j
      = _compute_delay b M a none now j ∧
    _compute_delay b M a (some HintValue.unparseable) now j
      = min (b * 2 ^ a) M + j :=
  ⟨rfl, rfl, rfl⟩

/-- A JSON value, for the structured result of `_request`. -/
inductive JsonVal
  | jnull
  | jbool (b : Bool)
  | jnum (q : ℚ)
  | jstr (s : List Char)
  | jarr (xs : List JsonVal)
  | jobj (fields : List (List Char × JsonVal))

/-- Shape of a response body as seen by client.py lines 236-241:
`empty` when `response.content` is falsy; `json j` when
`response.json()` succeeds with value `j`; `text s` when the non-empty
body `s` fails to parse as JSON (`ValueError`). -/
inductive BodyShape
  | empty
  | json (j : JsonVal)
  | text (s : List Char)

/-- Body handling of a successful final response, client.py lines
236-241: empty body yields `{}`, a JSON body yields the parsed value,
a non-JSON body yields `{"raw": <original text>}`. -/
def _finalize_body : BodyShape → JsonVal
  | .empty => .jobj []
  | .json j => j
  | .text s => .jobj [(('r' :: 'a' :: 'w' :: []), .jstr s)]

/-- One response from the transport: status code, optional parsed
`Retry-After` header, and body. -/
structure HttpResp where
  status : ℕ
  retry_after : Option HintValue
  body : BodyShape

/-- Outcome of one `self._client.request(...)` call: either an
`httpx.RequestError` (`exn`) or a received response. -/
inductive ReqOutcome
  | exn
  | resp (r : HttpResp)

/-- Final outcome of `_request`: a structured result (2xx), the
`httpx.HTTPStatusError` raised by `response.raise_for_status()` on a
non-retryable/exhausted response (carrying that response), or the
re-raised transport error.  `fuelOut` is an artifact of the fuel-based
encoding of the `while True` loop; the entry point `_request` supplies
fuel `max_retries + 1`, which the loop can never consume since every
retry requires `attempt < max_retries`. -/
inductive ReqFinal
  | ok (j : JsonVal)
  | httpError (r : HttpResp)
  | transportError
  | fuelOut

/-- The `while True` loop of `GeminiAsyncClient._request`
(client.py lines 189-241), driven by a transport oracle `t` giving the
outcome of the HTTP call made on each attempt.  The first component of
the result is the number of HTTP attempts performed.  Sleeping and
logging are effects with no bearing on the returned value (the logged
record is modelled separately by `_log_retry`). -/
def _request_go (t : ℕ → ReqOutcome) (max_retries : ℕ) :
    ℕ → ℕ → ℕ × ReqFinal
  | 0, attempt => (attempt, .fuelOut)
  | fuel + 1, attempt =>
    match t attempt with
    | .exn =>
      if _should_retry_exception attempt max_retries then
        _request_go t max_retries fuel (attempt + 1)
      else (attempt + 1, .transportError)
    | .resp r =>
      if _should_retry_response r.status attempt max_retries then
        _request_go t max_retries fuel (attempt + 1)
      else if r.status < 200 ∨ 300 ≤ r.status then (attempt + 1, .httpError r)
      else (attempt + 1, .ok (_finalize_body r.body))

/-- `GeminiAsyncClient._request` (client.py lines 189-241): start at
`attempt = 0` with enough fuel for the whole retry budget. -/
def _request (t : ℕ → ReqOutcome) (max_retries : ℕ) : ℕ × ReqFinal :=
  _request_go t max_retries (max_retries + 1) 0

/-- Helper for C2: if every attempt yields a response with a retryable
status, the loop runs the budget down and surfaces the last response. -/
theorem _request_go_exhausts (t : ℕ → ReqOutcome) (r : ℕ → HttpResp)
    (m : ℕ) (ht : ∀ n, t n = ReqOutcome.resp (r n))
    (hs : ∀ n, (r n).status = 429 ∨ (r n).status = 502 ∨
      (r n).status = 503 ∨ (r n).status = 504) :
    ∀ fuel attempt, attempt ≤ m → m + 1 ≤ attempt + fuel →
      _request_go t m fuel attempt = (m + 1, ReqFinal.httpError (r m)) := by
  intro fuel
  induction fuel with
  | zero => intro attempt h1 h2; omega
  | succ f ih =>
    intro attempt h1 h2
    have hmem : (r attempt).status ∈ _RETRY_STATUS := by
      rcases hs attempt with h | h | h | h <;> simp [_RETRY_STATUS, h]
    have h300 : 300 ≤ (r attempt).status := by
      rcases hs attempt with h | h | h | h <;> omega
    by_cases hlt : attempt < m
    · have hretry : _should_retry_response (r attempt).status attempt m
          = true := by
        simp [_should_retry_response, hmem, hlt]
      simp only [_request_go, ht attempt, hretry, if_true]
      exact ih (attempt + 1) (by omega) (by omega)
    · have hm : attempt = m := by omega
      have hretry : _should_retry_response (r attempt).status attempt m
          = false := by
        simp [_should_retry_response, hmem, hlt]
      simp only [_request_go, ht attempt, hretry, Bool.false_eq_true,
        if_false]
      rw [if_pos (Or.inr h300), hm]

/-- C2: against a transport that always returns a retryable status
(any of 429, 502, 503, 504), the non-streaming loop performs exactly
`max_retries + 1` HTTP attempts (1 initial + `max_retries` retries) and
the surfaced failure is the response of the last attempt (attempt index
`max_retries`), never discarded. -/
theorem c2_retry_budget_exhaustion (t : ℕ → ReqOutcome) (r : ℕ → HttpResp)
    (m : ℕ) (ht : ∀ n, t n = ReqOutcome.resp (r n))
    (hs : ∀ n, (r n).status = 429 ∨ (r n).status = 502 ∨
      (r n).status = 503 ∨ (r n).status = 504) :
    _request t m = (m + 1, ReqFinal.httpError (r m)) :=
  _request_go_exhausts t r m ht hs (m + 1) 0 (by omega) (by omega)

/-- Witness for C2: always-429 transport with `max_retries = 2`
performs exactly 3 attempts and surfaces the 429 response. -/
theorem c2_witness :
    _request (fun _ => ReqOutcome.resp ⟨429, none, BodyShape.empty⟩) 2
      = (3, ReqFinal.httpError ⟨429, none, BodyShape.empty⟩) :=
  c2_retry_budget_exhaustion _ (fun _ => ⟨429, none, BodyShape.empty⟩) 2
    (fun _ => rfl) (fun _ => Or.inl rfl)

/-- C7: when the first attempt yields a 2xx response, the loop returns
after that single attempt with the normalized body: an empty body gives
the empty mapping `{}` (not an error), a JSON body gives the parsed
value, and a non-empty non-JSON body gives the raw-text fallback
`{"raw": <exact original text>}`. -/
theorem c7_success_body (t : ℕ → ReqOutcome) (m : ℕ) (r : HttpResp)
    (j : JsonVal) (s : List Char) (h0 : t 0 = ReqOutcome.resp r)
    (h2 : 200 ≤ r.status) (h3 : r.status < 300) :
    _request t m = (1, ReqFinal.ok (_finalize_body r.body)) ∧
    _finalize_body .empty = .jobj [] ∧
    _finalize_body (.json j) = j ∧
    _finalize_body (.text s)
      = .jobj [(('r' :: 'a' :: 'w' :: []), .jstr s)] := by
  refine ⟨?_, rfl, rfl, rfl⟩
  have hnot : _should_retry_response r.status 0 m = false := by
    have : r.status ∉ _RETRY_STATUS := by simp [_RETRY_STATUS]; omega
    simp [_should_retry_response, this]
  have hterm : ¬ (r.status < 200 ∨ 300 ≤ r.status) := by omega
  simp only [_request, _request_go, h0, hnot, Bool.false_eq_true, if_false]
  rw [if_neg hterm]

/-- Witness for C7: a single 200 response with the non-JSON body "hi". -/
theorem c7_witness :
    _request
      (fun _ => ReqOutcome.resp ⟨200, none, BodyShape.text ('h' :: 'i' :: [])⟩)
      3 = (1, ReqFinal.ok (_finalize_body (BodyShape.text ('h' :: 'i' :: [])))) ∧
    _finalize_body .empty = .jobj [] ∧
    _finalize_body (.json .jnull) = .jnull ∧
    _finalize_body (.text ('h' :: 'i' :: []))
      = .jobj [(('r' :: 'a' :: 'w' :: []), .jstr ('h' :: 'i' :: []))] :=
  c7_success_body _ 3 ⟨200, none, BodyShape.text ('h' :: 'i' :: [])⟩ .jnull
    ('h' :: 'i' :: []) rfl (by decide) (by decide)

/-- One streaming attempt as seen by `_stream_request`: the response
status and `Retry-After` header available at stream open, the body
chunks that arrive (in order) if the stream is consumed, and whether an
`httpx.RequestError` (connection drop) occurs mid-stream after those
chunks. -/
structure StreamResp where
  status : ℕ
  retry_after : Option HintValue
  chunks : List (List Char)
  mid_failure : Bool

/-- Outcome of one `self._client.stream(...)` open: an
`httpx.RequestError` raised at open time (`openFailure`), or a response
whose header/status is available before any payload is consumed. -/
inductive StreamOutcome
  | openFailure
  | resp (r : StreamResp)

/-- Final outcome of `_stream_request`.  `fuelOut` is an artifact of
the fuel-based encoding, unreachable from the entry point. -/
inductive StreamFinal
  | success
  | transportError
  | httpError (status : ℕ)
  | fuelOut

/-- The `while True` loop of `GeminiAsyncClient._stream_request`
(client.py lines 243-296), driven by a transport oracle `t` for each
attempt.  `acc` accumulates the chunks delivered to the caller's
consumer so far (empty chunks are filtered, source line 282).  Returns
(delivered chunks, number of HTTP attempts performed, final outcome).

Faithful to the source, the `except httpx.RequestError` clause (line
287) surrounds the whole `async with` block, so it catches both
open-time failures and mid-stream connection drops raised while
iterating `response.aiter_text()` (httpx read/protocol errors are
`RequestError` subclasses); `response.raise_for_status()` raises
`httpx.HTTPStatusError`, which is not a `RequestError` and so
propagates. -/
def _stream_go (t : ℕ → StreamOutcome) (max_retries : ℕ) :
    ℕ → ℕ → List (List Char) → List (List Char) × ℕ × StreamFinal
  | 0, attempt, acc => (acc, attempt, .fuelOut)
  | fuel + 1, attempt, acc =>
    match t attempt with
    | .openFailure =>
      if _should_retry_exception attempt max_retries then
        _stream_go t max_retries fuel (attempt + 1) acc
      else (acc, attempt + 1, .transportError)
    | .resp r =>
      if _should_retry_response r.status attempt max_retries then
        -- body drained without delivery before retrying (lines 264-268)
        _stream_go t max_retries fuel (attempt + 1) acc
      else if r.status < 200 ∨ 300 ≤ r.status then
        (acc, attempt + 1, .httpError r.status)
      else
        let delivered := acc ++ r.chunks.filter (fun c => !c.isEmpty)
        if r.mid_failure then
          if _should_retry_exception attempt max_retries then
            _stream_go t max_retries fuel (attempt + 1) delivered
          else (delivered, attempt + 1, .transportError)
        else (delivered, attempt + 1, .success)

/-- `GeminiAsyncClient._stream_request` (client.py lines 243-296). -/
def _stream_request (t : ℕ → StreamOutcome) (max_retries : ℕ) :
    List (List Char) × ℕ × StreamFinal :=
  _stream_go t max_retries (max_retries + 1) 0 []

/-- Transport for the C1 failing input: attempt 0 returns HTTP 200,
delivers the chunk "hi", then the connection drops mid-stream; attempt 1
returns HTTP 200 and delivers "yo" to completion. -/
def stream_drop_transport : ℕ → StreamOutcome := fun n =>
  if n = 0 then .resp ⟨200, none, (('h' :: 'i' :: []) :: []), true⟩
  else .resp ⟨200, none, (('y' :: 'o' :: []) :: []), false⟩

/-- C1 (code bug): with `max_retries = 1`, after the chunk "hi" has been
delivered to the consumer on attempt 0, the mid-stream connection drop
is caught by the same `except httpx.RequestError` clause as open-time
failures and the request is retried: the engine performs a second HTTP
attempt (counter 2, not frozen at 1), delivers "yo" after the already
delivered "hi", and reports success instead of surfacing an error.
This contradicts the committed-stream rule of the specification. -/
theorem c1_stream_retries_after_first_chunk :
    _stream_request stream_drop_transport 1
      = ((('h' :: 'i' :: []) :: ('y' :: 'o' :: []) :: []), 2,
          StreamFinal.success) := rfl

/-- `redact_api_key` (client.py lines 35-40), on an optional key;
`none` also covers the empty string (both falsy in the source). -/
def redact_api_key : Option (List Char) → Option (List Char)
  | none => none
  | some key =>
    if key.isEmpty then none
    else if key.length ≤ 8 then some ('*' :: '*' :: '*' :: '*' :: [])
    else some (key.take 4 ++ ('.' :: '.' :: '.' :: [])
      ++ key.drop (key.length - 4))

/-- Python `round(x, 2)` (banker's rounding to 2 decimal places),
idealised over `ℚ`, used for the `delay` field of the log record. -/
def _py_round2 (q : ℚ) : ℚ :=
  let scaled := q * 100
  let fl := ⌊scaled⌋
  let n : ℤ :=
    if scaled - fl < 1 / 2 then fl
    else if 1 / 2 < scaled - fl then fl + 1
    else if fl % 2 = 0 then fl else fl + 1
  (n : ℚ) / 100

/-- The `extra` mapping of the retry log record
(client.py lines 344-354). -/
structure LogRecord where
  attempt : ℕ
  delay : ℚ
  status : Option ℕ
  retry_after : Option (List Char)
  api_key : Option (List Char)
  error : Option (List Char)

/-- `GeminiAsyncClient._log_retry` (client.py lines 335-354): the
record carries `attempt + 1`, the delay rounded to 2 decimals, and the
redacted credential. -/
def _log_retry (attempt : ℕ) (delay : ℚ) (status : Option ℕ)
    (retry_after error : Option (List Char))
    (api_key : Option (List Char)) : LogRecord :=
  { attempt := attempt + 1
    delay := _py_round2 delay
    status := status
    retry_after := retry_after
    api_key := redact_api_key api_key
    error := error }

/-- C8 counterexample: for the API key "****" (length 4, hence masked
to the constant "****"), the `api_key` field of the retry log record is
exactly the raw key in full, refuting the claim that no log field ever
contains the raw API key. -/
theorem c8_counterexample :
    (_log_retry 0 1 none none none
        (some ('*' :: '*' :: '*' :: '*' :: []))).api_key
      = some ('*' :: '*' :: '*' :: '*' :: []) := rfl

/-- C8 (amended): the retry log record contains the attempt number
(1-based), the computed delay (rounded to 2 decimals), and the redacted
credential mask `first4 ++ "..." ++ last4`; for any API key longer than
8 characters that does not contain the character '.', the raw key never
occurs (as a contiguous run) inside that mask, so no log field carries
it in full.  (Keys of at most 8 characters are masked to the constant
"****", which reveals nothing but can textually coincide with such a
key, as the counterexample shows.) -/
theorem c8_redaction_amended (a : ℕ) (d : ℚ) (st : Option ℕ)
    (ra err : Option (List Char)) (key s t : List Char)
    (h8 : 8 < key.length) (hdot : '.' ∉ key) :
    (_log_retry a d st ra err (some key)).attempt = a + 1 ∧
    (_log_retry a d st ra err (some key)).delay = _py_round2 d ∧
    (_log_retry a d st ra err (some key)).api_key
      = some (key.take 4 ++ ('.' :: '.' :: '.' :: [])
          ++ key.drop (key.length - 4)) ∧
    s ++ key ++ t
      ≠ key.take 4 ++ ('.' :: '.' :: '.' :: [])
          ++ key.drop (key.length - 4) := by
  have hne : key.isEmpty = false := by
    cases key with
    | nil => simp at h8
    | cons c cs => rfl
  have h8' : ¬ key.length ≤ 8 := by omega
  refine ⟨rfl, rfl, ?_, ?_⟩
  · simp [_log_retry, redact_api_key, hne, h8']
  · intro h
    have htk : (key.take 4).length = 4 := by
      rw [List.length_take]; omega
    have hlen : s.length + key.length + t.length = 11 := by
      have := congrArg List.length h
      simp [List.length_append, htk, List.length_drop] at this
      omega
    have hs4 : s.length ≤ 4 := by omega
    have hsk4 : 4 < (s ++ key).length := by
      rw [List.length_append]; omega
    have hk4 : 4 - s.length < key.length := by omega
    have lhs4 : (s ++ key ++ t)[4]? = key[4 - s.length]? := by
      rw [List.getElem?_append_left hsk4, List.getElem?_append_right hs4]
    have htd7 : 4 < (key.take 4 ++ ('.' :: '.' :: '.' :: [])).length := by
      simp [List.length_append, htk]
    have rhs4 : (key.take 4 ++ ('.' :: '.' :: '.' :: [])
        ++ key.drop (key.length - 4))[4]? = some '.' := by
      rw [List.getElem?_append_left htd7,
        List.getElem?_append_right (le_of_eq htk), htk]
      rfl
    have hdot' : key[4 - s.length]? = some '.' := by
      rw [← lhs4, h, rhs4]
    exact hdot (List.getElem?_mem hdot')

/-- Witness for C8 (amended) at the 9-character dot-free key
"abcdefghi", with `s = t = []`. -/
theorem c8_witness :
    (_log_retry 0 1 none none none
        (some ('a' :: 'b' :: 'c' :: 'd' :: 'e' :: 'f' :: 'g' :: 'h'
          :: 'i' :: []))).attempt = 1 ∧
    (_log_retry 0 1 none none none
        (some ('a' :: 'b' :: 'c' :: 'd' :: 'e' :: 'f' :: 'g' :: 'h'
          :: 'i' :: []))).delay = _py_round2 1 ∧
    (_log_retry 0 1 none none none
        (some ('a' :: 'b' :: 'c' :: 'd' :: 'e' :: 'f' :: 'g' :: 'h'
          :: 'i' :: []))).api_key
      = some (('a' :: 'b' :: 'c' :: 'd' :: 'e' :: 'f' :: 'g' :: 'h'
          :: 'i' :: []).take 4 ++ ('.' :: '.' :: '.' :: [])
          ++ ('a' :: 'b' :: 'c' :: 'd' :: 'e' :: 'f' :: 'g' :: 'h'
          :: 'i' :: []).drop
            (('a' :: 'b' :: 'c' :: 'd' :: 'e' :: 'f' :: 'g' :: 'h'
          :: 'i' :: []).length - 4)) ∧
    [] ++ ('a' :: 'b' :: 'c' :: 'd' :: 'e' :: 'f' :: 'g' :: 'h'
          :: 'i' :: []) ++ ([] : List Char)
      ≠ ('a' :: 'b' :: 'c' :: 'd' :: 'e' :: 'f' :: 'g' :: 'h'
          :: 'i' :: []).take 4 ++ ('.' :: '.' :: '.' :: [])
          ++ ('a' :: 'b' :: 'c' :: 'd' :: 'e' :: 'f' :: 'g' :: 'h'
          :: 'i' :: []).drop
            (('a' :: 'b' :: 'c' :: 'd' :: 'e' :: 'f' :: 'g' :: 'h'
          :: 'i' :: []).length - 4) :=
  c8_redaction_amended 0 1 none none none
    ('a' :: 'b' :: 'c' :: 'd' :: 'e' :: 'f' :: 'g' :: 'h' :: 'i' :: [])
    [] [] (by decide) (by decide)

/-- `EndpointPaths` (config.py lines 19-26): per-operation relative
paths.  The path strings themselves play no role in the claims. -/
structure EndpointPaths where
  complete : List Char
  chat : List Char
  embed : List Char
  stream_complete : List Char
  health : List Char
deriving DecidableEq

/-- `Settings` (config.py lines 29-38).  `timeout` and `max_retries`
are optional here because the engine's constructor explicitly guards
against `None` values in those fields (client.py lines 96-102). -/
structure Settings where
  api_key : List Char
  endpoint : List Char
  timeout : Option ℚ
  max_retries : Option ℤ
  project : Option (List Char)
  paths : EndpointPaths
deriving DecidableEq

/-- The keyword overrides accepted by `GeminiAsyncClient.__init__`
(client.py lines 57-72) that are written into the settings object. -/
structure InitOverrides where
  api_key : Option (List Char)
  endpoint : Option (List Char)
  timeout : Option ℚ
  max_retries : Option ℤ
  project : Option (List Char)
deriving DecidableEq

/-- The field writes `__init__` performs on the settings object it
holds (client.py lines 81-102): each explicitly passed override is
assigned into the object (lines 81-90); lines 94-97 reassign
`endpoint` / `timeout` to `getattr(settings, ..., default)`, which on a
dataclass returns the existing attribute value, so they have no
observable effect; lines 99-102 default a `None` `max_retries` to 3. -/
def _apply_init_overrides (s : Settings) (o : InitOverrides) : Settings :=
  let s1 : Settings := match o.api_key with
    | some v => { s with api_key := v }
    | none => s
  let s2 : Settings := match o.endpoint with
    | some v => { s1 with endpoint := v }
    | none => s1
  let s3 : Settings := match o.timeout with
    | some v => { s2 with timeout := some v }
    | none => s2
  let s4 : Settings := match o.max_retries with
    | some v => { s3 with max_retries := some v }
    | none => s3
  let s5 : Settings := match o.project with
    | some v => { s4 with project := some v }
    | none => s4
  if s5.max_retries = none then { s5 with max_retries := some 3 } else s5

/-- State of the caller's `Settings` object after
`GeminiAsyncClient.__init__` runs with it (client.py lines 74-102).
When a `paths` argument is given, line 78 rebinds the local name to a
`dataclasses.replace` copy, so the caller's object is untouched and all
subsequent writes hit the copy; otherwise the writes of
`_apply_init_overrides` land on the caller's object. -/
def _init_config_effect (s : Settings) (o : InitOverrides)
    (paths : Option EndpointPaths) : Settings :=
  match paths with
  | some _ => s
  | none => _apply_init_overrides s o

/-- A concrete fully-populated configuration used as counterexample
input for C9. -/
def sample_settings : Settings :=
  { api_key := ('o' :: 'l' :: 'd' :: [])
    endpoint := ('h' :: 't' :: 't' :: 'p' :: [])
    timeout := some 30
    max_retries := some 3
    project := none
    paths := ⟨('c' :: []), ('c' :: []), ('e' :: []), ('s' :: []),
      ('h' :: [])⟩ }

/-- C9 counterexample: constructing the engine around an existing
configuration while passing the `api_key` override writes through to
the caller's configuration object: its `api_key` field afterwards holds
the override value, not the value it was constructed with — the
configuration is mutated after its construction. -/
theorem c9_counterexample :
    (_init_config_effect sample_settings
        ⟨some ('n' :: 'e' :: 'w' :: []), none, none, none, none⟩
        none).api_key
      = ('n' :: 'e' :: 'w' :: []) ∧
    sample_settings.api_key = ('o' :: 'l' :: 'd' :: []) ∧
    _init_config_effect sample_settings
        ⟨some ('n' :: 'e' :: 'w' :: []), none, none, none, none⟩ none
      ≠ sample_settings := by
  refine ⟨rfl, rfl, ?_⟩
  decide

/-- C9 (amended): the engine mutates the configuration it was given
only inside its constructor, and only to write explicitly passed
overrides or to default a missing (`None`) `max_retries` to 3; when no
overrides are passed and `max_retries` is populated, the configuration
is unchanged, and when a `paths` replacement is passed the engine works
on a fresh copy, leaving the caller's object unchanged whatever the
other overrides.  After construction the engine only reads the
configuration. -/
theorem c9_init_mutation_amended (s : Settings) (o : InitOverrides)
    (p : EndpointPaths) (hmr : s.max_retries ≠ none) :
    _init_config_effect s ⟨none, none, none, none, none⟩ none = s ∧
    _init_config_effect s o (some p) = s := by
  refine ⟨?_, rfl⟩
  simp only [_init_config_effect, _apply_init_overrides]
  simp [hmr]

/-- Witness for C9 (amended) at `sample_settings`. -/
theorem c9_witness :
    _init_config_effect sample_settings
        ⟨none, none, none, none, none⟩ none = sample_settings ∧
    _init_config_effect sample_settings
        ⟨some ('n' :: 'e' :: 'w' :: []), none, none, none, none⟩
        (some ⟨('c' :: []), ('c' :: []), ('e' :: []), ('s' :: []),
          ('h' :: [])⟩)
      = sample_settings :=
  c9_init_mutation_amended sample_settings
    ⟨some ('n' :: 'e' :: 'w' :: []), none, none, none, none⟩
    ⟨('c' :: []), ('c' :: []), ('e' :: []), ('s' :: []), ('h' :: [])⟩
    (by decide)

/-- `GeminiAsyncClient._build_url` (client.py lines 138-145): strip
trailing slashes from the endpoint, ensure the path has a leading
slash, and append `?key=<api_key>` exactly when the key is truthy
(present and non-empty). -/
def _build_url (endpoint : List Char) (api_key : Option (List Char))
    (path : List Char) : List Char :=
  let base := (endpoint.reverse.dropWhile (fun c => c = '/')).reverse
  let p := if path.head? = some '/' then path else '/' :: path
  let url := base ++ p
  match api_key with
  | some (c :: k) => url ++ ('?' :: 'k' :: 'e' :: 'y' :: '=' :: []) ++ (c :: k)
  | _ => url

/-- C10: with a non-empty API key, the URL handed to the transport is
the endpoint with trailing slashes stripped, then the path with a
leading slash ensured, then `?key=` followed by the raw (unredacted)
key; with an absent or empty key, the URL is just endpoint-plus-path
with no key parameter appended. -/
theorem c10_build_url (endpoint path k : List Char) (hk : k ≠ []) :
    _build_url endpoint (some k) path
      = (endpoint.reverse.dropWhile (fun c => c = '/')).reverse
        ++ (if path.head? = some '/' then path else '/' :: path)
        ++ ('?' :: 'k' :: 'e' :: 'y' :: '=' :: []) ++ k ∧
    _build_url endpoint none path
      = (endpoint.reverse.dropWhile (fun c => c = '/')).reverse
        ++ (if path.head? = some '/' then path else '/' :: path) ∧
    _build_url endpoint (some []) path = _build_url endpoint none path := by
  refine ⟨?_, rfl, rfl⟩
  cases k with
  | nil => exact absurd rfl hk
  | cons c cs => simp [_build_url, List.append_assoc]

/-- Witness for C10: endpoint "https://e/", path "v1", key "KEY"
produces the URL "https://e/v1?key=KEY". -/
theorem c10_witness :
    _build_url
        ('h' :: 't' :: 't' :: 'p' :: 's' :: ':' :: '/' :: '/' :: 'e'
          :: '/' :: [])
        (some ('K' :: 'E' :: 'Y' :: []))
        ('v' :: '1' :: [])
      = ('h' :: 't' :: 't' :: 'p' :: 's' :: ':' :: '/' :: '/' :: 'e'
          :: '/' :: 'v' :: '1' :: '?' :: 'k' :: 'e' :: 'y' :: '='
          :: 'K' :: 'E' :: 'Y' :: []) := by
  have h := (c10_build_url
    ('h' :: 't' :: 't' :: 'p' :: 's' :: ':' :: '/' :: '/' :: 'e'
      :: '/' :: [])
    ('v' :: '1' :: [])
    ('K' :: 'E' :: 'Y' :: []) (by decide)).1
  exact h.trans (by decide)
